import Mathlib

/-!
Verification development for the managed-LLM-server supervisor and the
embedded model service of the file-organizer desktop application.

The Rust sources are shallowly embedded: pure helpers become Lean
functions; stateful commands become explicit state-passing functions whose
external effects (filesystem existence checks, HTTP probes, process
liveness, download chunk arrivals) are parameters or small outcome types.
Definitions keep the source's snake_case names where possible.
-/

set_option maxRecDepth 4096

/-! ## Version parsing and comparison (main.rs: parse_version, compare_versions) -/

/-- Unicode-whitespace trim on a character list, modelling Rust `str::trim`. -/
def trimChars (l : List Char) : List Char :=
  ((l.dropWhile Char.isWhitespace).reverse.dropWhile Char.isWhitespace).reverse

/-- `str::split('.')` on a character list. -/
def splitOnDot : List Char → List (List Char)
  | [] => [[]]
  | c :: rest =>
    match splitOnDot rest with
    | [] => [[]]
    | h :: t => if c = '.' then [] :: h :: t else (c :: h) :: t

/-- Rust `u32::from_str`: optional leading plus sign, then one or more
decimal digits, rejecting overflow past 2^32 - 1. -/
def parseU32 (l : List Char) : Option Nat :=
  let digits := match l with
    | '+' :: rest => rest
    | other => other
  if digits.isEmpty then none
  else if digits.all Char.isDigit then
    let n := digits.foldl (fun acc c => acc * 10 + (c.toNat - 48)) 0
    if n < 4294967296 then some n else none
  else none

/-- main.rs `parse_version`: trim, strip leading `v` characters, split on
dots, and parse the first three components as u32. -/
def parse_version (s : String) : Option (Nat × Nat × Nat) :=
  let cleaned := (trimChars s.data).dropWhile (fun c => c = 'v')
  match splitOnDot cleaned with
  | p0 :: p1 :: p2 :: _ =>
    match parseU32 p0, parseU32 p1, parseU32 p2 with
    | some major, some minor, some patch => some (major, minor, patch)
    | _, _, _ => none
  | _ => none

/-- main.rs `compare_versions`: `some true` iff version1 > version2
lexicographically on (major, minor, patch); `none` when either side fails
to parse. -/
def compare_versions (version1 version2 : String) : Option Bool :=
  match parse_version version1, parse_version version2 with
  | some v1, some v2 =>
    if v1.1 > v2.1 then some true
    else if v1.1 < v2.1 then some false
    else if v1.2.1 > v2.2.1 then some true
    else if v1.2.1 < v2.2.1 then some false
    else if v1.2.2 > v2.2.2 then some true
    else some false
  | _, _ => none

/-- main.rs `check_llm_server_update`: the update_available decision from
the current and latest version strings. -/
def update_available (current latest : Option String) : Bool :=
  match current, latest with
  | some c, some l =>
    match compare_versions l c with
    | some true => true
    | _ => false
  | none, some _ => true
  | _, _ => false

/-! ## Prompt truncation (embedded_llm.rs: EmbeddedModel::infer) -/

/-- embedded_llm.rs `EmbeddedModel::infer`, prompt-truncation step.
`max_prompt_chars` is the full prompt length when at least 33 GPU layers
are configured and 400 otherwise; the source then evaluates
`if max_prompt_chars > prompt.len() { &prompt[..max_prompt_chars] } else { &prompt[..] }`,
whose then-branch slices past the end of the string and panics (modelled
as `none`), while the else-branch feeds the whole prompt. -/
def truncated_prompt (gpuLayers : Option Nat) (prompt : List Char) : Option (List Char) :=
  let maxPromptChars := if 33 ≤ gpuLayers.getD 0 then prompt.length else 400
  if maxPromptChars > prompt.length then none
  else some prompt

/-! ## Embedded model registry (embedded_llm.rs: EmbeddedModel::new, ensure_model, infer) -/

/-- A loaded engine: the model path plus an instance identity, so that
"the loaded engine instance is unchanged" and "the old engine is dropped"
are observable. -/
structure Engine where
  path : String
  instanceId : Nat
deriving DecidableEq

/-- The process-wide EMBEDDED_MODEL cell plus a fresh-identity counter. -/
structure EngineState where
  loaded : Option Engine
  nextId : Nat
deriving DecidableEq

/-- Observable engine lifecycle events, in program order. -/
inductive EngineEvent
  | constructed (path : String) (id : Nat)
  | dropped (path : String) (id : Nat)
deriving DecidableEq, BEq

/-- embedded_llm.rs `EmbeddedModel::new`: fails when the model file does
not exist, otherwise yields a fresh engine instance. -/
def embedded_model_new (fileExists : String → Bool) (path : String) (id : Nat) :
    Except String Engine :=
  if fileExists path then Except.ok ⟨path, id⟩
  else Except.error ("Model file not found at " ++ path)

/-- embedded_llm.rs `ensure_model`: if the cell is empty, construct and
install a new engine (construction failure propagates, leaving the cell
empty); otherwise read the loaded path, and when it differs from the
requested one evaluate `*lock = EmbeddedModel::new(&config)?` — the new
engine is constructed first, the `?` propagates a failure before the cell
is touched, and only the assignment drops the old engine. Returns the new
state, the lifecycle events in order, and the result. -/
def ensure_model (fileExists : String → Bool) (st : EngineState) (path : String) :
    EngineState × List EngineEvent × Except String Unit :=
  match st.loaded with
  | none =>
    match embedded_model_new fileExists path st.nextId with
    | Except.error e => (st, [], Except.error e)
    | Except.ok eng =>
      ({ loaded := some eng, nextId := st.nextId + 1 },
       [EngineEvent.constructed path st.nextId], Except.ok ())
  | some old =>
    if old.path = path then (st, [], Except.ok ())
    else
      match embedded_model_new fileExists path st.nextId with
      | Except.error e => (st, [], Except.error e)
      | Except.ok eng =>
        ({ loaded := some eng, nextId := st.nextId + 1 },
         [EngineEvent.constructed path st.nextId,
          EngineEvent.dropped old.path old.instanceId], Except.ok ())

/-- embedded_llm.rs `infer`: the engine a subsequent inference call runs
against is whatever the EMBEDDED_MODEL cell holds. -/
def infer_engine (st : EngineState) : Option Engine := st.loaded

/-- A concrete state with engine instance 0 loaded from path "a". -/
def c2State : EngineState := { loaded := some ⟨"a", 0⟩, nextId := 1 }

/-! ## Process supervisor state (main.rs) -/

/-- reqwest probe outcome: a response with an HTTP status code, or a
connection failure with a message. -/
inductive ProbeResult
  | ok (statusCode : Nat)
  | err (msg : String)
deriving DecidableEq

/-- `reqwest::StatusCode::is_success`: 200..=299. -/
def http_success (code : Nat) : Bool := decide (200 ≤ code ∧ code < 300)

/-- main.rs `ServerProcessInfo` plus the optional owning `Child` handle as
stored in `ManagedLLMState`: `handle = none` models an orphaned process
reconnected without a `Child`. -/
structure ServerRecord where
  handle : Option Nat
  pid : Nat
  host : String
  port : Nat
deriving DecidableEq

/-- The supervisor's in-memory record (`ManagedLLMState`) together with
the persisted PID file (pid, port, host), mirroring `read_pid_file`. -/
structure SupervisorState where
  pidFile : Option (Nat × Nat × String)
  record : Option ServerRecord
deriving DecidableEq

/-- main.rs `get_llm_server_status` result record (`ManagedLLMServerInfo`). -/
structure ManagedLLMServerInfo where
  status : String
  version : Option String
  path : Option String
  port : Option Nat
  errorMsg : Option String
deriving DecidableEq

/-- The ordered executable candidate list `possible_paths` checked by
`get_llm_server_status` on Linux, relative to the server directory. -/
def statusCandidatePaths : List String :=
  ["llama_server/llama_server", "llama_server",
   "llama_server/llama_server/llama_server"]

/-- The single executable path `start_llm_server` checks on Linux,
relative to the server directory. -/
def startServerExePath : String := "llama_server/llama_server"

/-- main.rs `get_llm_server_status`: resolve the app data directory (its
absence is the command's error return), look for the executable among the
candidates, then classify by the HTTP probe of the configured host:port.
`pathExists` is the filesystem, `storedVersion` the persisted version
file, `recordHostPort` the host/port of the in-memory record if any. -/
def get_llm_server_status (appDataDirOk : Bool) (pathExists : String → Bool)
    (storedVersion : Option String) (recordHostPort : Option (String × Nat))
    (probe : ProbeResult) : Except String ManagedLLMServerInfo :=
  if appDataDirOk = false then Except.error "Could not get app data directory"
  else
    match statusCandidatePaths.find? pathExists with
    | none => Except.ok ⟨"not_downloaded", none, none, none, none⟩
    | some exePath =>
      let version := match storedVersion with
        | some vv => some vv
        | none => some "1.0.0"
      let port := (recordHostPort.getD ("127.0.0.1", 8000)).2
      match probe with
      | ProbeResult.ok code =>
        if http_success code then
          Except.ok ⟨"running", version, some exePath, some port, none⟩
        else
          Except.ok ⟨"downloaded", version, some exePath, some port,
            some ("Server responded with status: " ++ toString code)⟩
      | ProbeResult.err e =>
        Except.ok ⟨"downloaded", version, some exePath, some port,
          some ("Connection failed: " ++ e)⟩

/-- main.rs `start_llm_server`, executable-resolution step: the single
path is checked and a missing binary is the NotFound error. -/
def start_resolve_exe (pathExists : String → Bool) : Except String String :=
  if pathExists startServerExePath then Except.ok startServerExePath
  else Except.error "Server binary not found. Please download it first."

/-- main.rs `try_reconnect_orphaned_server`: read the PID file; if the pid
is dead, delete the file; if alive, probe `/v1/models`; a successful probe
installs a record with no owning handle; otherwise delete the stale file.
The middle component lists the pids of processes spawned during the call:
the source function contains no spawn, so it is always empty. -/
def try_reconnect_orphaned_server (st : SupervisorState) (alive : Nat → Bool)
    (probe : ProbeResult) : SupervisorState × List Nat × Except String Unit :=
  match st.pidFile with
  | none => (st, [], Except.ok ())
  | some (pid, port, host) =>
    if alive pid = false then
      ({ st with pidFile := none }, [], Except.ok ())
    else
      match probe with
      | ProbeResult.ok code =>
        if http_success code then
          ({ st with record := some ⟨none, pid, host, port⟩ }, [], Except.ok ())
        else
          ({ st with pidFile := none }, [], Except.ok ())
      | ProbeResult.err _ =>
        ({ st with pidFile := none }, [], Except.ok ())

/-- main.rs `stop_llm_server`: `state_guard.take()` — when a record is
present, attempt the platform kills (their outcomes, and the liveness
verification `aliveAfter`, are logged only), remove the PID file, and
return "Server stopped"; when no record is present, return
"Server was not running" leaving the state (including any PID file)
untouched. -/
def stop_llm_server (st : SupervisorState) (killOk : Bool) (aliveAfter : Bool) :
    SupervisorState × Except String String :=
  match st.record with
  | some _ => ({ pidFile := none, record := none }, Except.ok "Server stopped")
  | none => (st, Except.ok "Server was not running")

/-- The status string of a successful `get_llm_server_status` result. -/
def statusField : Except String ManagedLLMServerInfo → Option String
  | Except.ok info => some info.status
  | Except.error _ => none

/-- Whether a successful `get_llm_server_status` result carries a
diagnostic error field. -/
def diagField : Except String ManagedLLMServerInfo → Bool
  | Except.ok info => info.errorMsg.isSome
  | Except.error _ => false

/-- A state with a leftover PID file and no in-memory record. -/
def c6State : SupervisorState :=
  { pidFile := some (1234, 8000, "127.0.0.1"), record := none }


/-! ## Update transaction (main.rs: update_llm_server) -/

/-- Contents of the install and backup directories (`server_path`,
`backup_path`); `none` means absent, `some c` holds abstract directory
content so that bit-for-bit preservation of a rename round trip is
expressible. -/
structure InstallFs where
  server : Option Nat
  backup : Option Nat
deriving DecidableEq

/-- Outcome of the `download_llm_server` step inside `update_llm_server`:
success installs fresh content; failure may leave partial content at the
install directory. -/
inductive DlOutcome
  | ok (content : Nat)
  | err (msg : String) (partialContent : Option Nat)
deriving DecidableEq

/-- main.rs `update_llm_server`: stop if running, rename any existing
install directory to the backup location (replacing a prior backup),
attempt download+install; on install failure with a backup present,
remove the partial install, rename the backup back, best-effort restart,
and report the failure; on install success with a prior running server,
try to start the new binary — on start failure remove the new install,
restore the backup, best-effort restart, and report the failure —
otherwise delete the backup and report success. Rename is modelled as
content-preserving moves on `InstallFs`. -/
def update_llm_server (version : String) (fs : InstallFs) (wasRunning : Bool)
    (dl : DlOutcome) (startResult : Except String String) :
    InstallFs × Except String String :=
  let fs1 : InstallFs :=
    if fs.server.isSome then { server := none, backup := fs.server } else fs
  match dl with
  | DlOutcome.ok c =>
    let fs2 : InstallFs := { fs1 with server := some c }
    if wasRunning then
      match startResult with
      | Except.ok _ =>
        ({ fs2 with backup := none },
         Except.ok ("Successfully updated to version " ++ version))
      | Except.error se =>
        let fs3 : InstallFs := { fs2 with server := none }
        let fs4 : InstallFs :=
          if fs3.backup.isSome then { server := fs3.backup, backup := none } else fs3
        (fs4, Except.error ("Update failed: " ++ se ++ ". Restored previous version."))
    else
      ({ fs2 with backup := none },
       Except.ok ("Successfully updated to version " ++ version))
  | DlOutcome.err e p =>
    let fs2 : InstallFs := { fs1 with server := p }
    if fs2.backup.isSome then
      ({ server := fs2.backup, backup := none },
       Except.error ("Update failed: " ++ e ++ ". Previous version restored."))
    else
      (fs2, Except.error ("Update failed: " ++ e ++ ". Previous version restored."))

/-! ## Download background task (embedded_llm_service.rs: download_handler,
perform_download) -/

/-- DownloadStatus from embedded_llm_service.rs. -/
inductive DownloadStatus
  | pending
  | inProgress
  | completed
  | failed
deriving DecidableEq

/-- One run of the download background task, as observed by the outside
world: the initial GET outcome (connection error or HTTP status code),
whether the target file opened, the advertised total size, the chunk
arrivals (each a read error or a chunk byte length), whether the final
flush succeeded, and the checksum verification outcome when a checksum was
supplied (`some b` with `b` = digest matched). -/
structure DlScript where
  response : Except String Nat
  openOk : Bool
  chunks : List (Except String Nat)
  flushOk : Bool
  checksum : Option Bool

/-- The streaming loop of `perform_download` plus its epilogue: the
snapshots of (status, bytes_downloaded) that `update_download` writes
after the record has entered InProgress with `bytes` bytes already
counted. A chunk error (or flush failure, or checksum mismatch) is the
task error that `download_handler`'s closure converts into a Failed
record, leaving bytes unchanged; each successful chunk increments the
byte counter; exhausting the stream flushes and then verifies the
checksum before marking Completed. -/
def stream_snaps (s : DlScript) : List (Except String Nat) → Nat →
    List (DownloadStatus × Nat)
  | [], bytes =>
    if s.flushOk = false then [(DownloadStatus.failed, bytes)]
    else
      match s.checksum with
      | some false => [(DownloadStatus.failed, bytes)]
      | _ => [(DownloadStatus.completed, bytes)]
  | Except.error _ :: _, bytes => [(DownloadStatus.failed, bytes)]
  | Except.ok n :: rest, bytes =>
    (DownloadStatus.inProgress, bytes + n) :: stream_snaps s rest (bytes + n)

/-- embedded_llm_service.rs `download_handler` + `perform_download`: the
full lifetime of one DownloadRecord as the sequence of
(status, bytes_downloaded) snapshots, starting from the Pending record
registered by the handler. A failed GET or a non-success HTTP status
aborts before InProgress; a failure to open the target file aborts just
after; otherwise the streaming loop runs. -/
def perform_download (s : DlScript) : List (DownloadStatus × Nat) :=
  (DownloadStatus.pending, 0) ::
  match s.response with
  | Except.error _ => [(DownloadStatus.failed, 0)]
  | Except.ok code =>
    if http_success code = false then [(DownloadStatus.failed, 0)]
    else if s.openOk = false then
      [(DownloadStatus.inProgress, 0), (DownloadStatus.failed, 0)]
    else (DownloadStatus.inProgress, 0) :: stream_snaps s s.chunks 0

/-- Forward-only ordering on download statuses: Pending precedes
everything, InProgress precedes the two terminal statuses, and Completed
and Failed are terminal and mutually unreachable. -/
def statusRank : DownloadStatus → Nat
  | DownloadStatus.pending => 0
  | DownloadStatus.inProgress => 1
  | DownloadStatus.completed => 2
  | DownloadStatus.failed => 2

/-- `statusLE a b`: a record in status `a` may later be observed in status
`b`. -/
def statusLE (a b : DownloadStatus) : Prop :=
  a = b ∨ statusRank a < statusRank b

/-- Snapshot ordering: the status moves forward and the byte counter does
not decrease. -/
def snapLE (a b : DownloadStatus × Nat) : Prop :=
  statusLE a.1 b.1 ∧ a.2 ≤ b.2

instance : IsTrans (DownloadStatus × Nat) snapLE := by
  constructor
  intro a b c hab hbc
  refine ⟨?_, le_trans hab.2 hbc.2⟩
  rcases hab.1 with h1 | h1 <;> rcases hbc.1 with h2 | h2
  · exact Or.inl (h1.trans h2)
  · exact Or.inr (h1 ▸ h2)
  · exact Or.inr (h2 ▸ h1)
  · exact Or.inr (h1.trans h2)

/-! ## Theorems settling the claims -/

/-- C8: version comparison on (major, minor, patch) tuples: 1.2.3 against
1.2.4 reports not-newer; 2.0.0 against 1.9.9 reports newer; when either
version string is malformed the comparison yields no result and no update
is reported as available. -/
theorem C8_compare_versions (bad v : String) (h : parse_version bad = none) :
    compare_versions "1.2.3" "1.2.4" = some false ∧
    compare_versions "2.0.0" "1.9.9" = some true ∧
    compare_versions bad v = none ∧
    compare_versions v bad = none ∧
    update_available (some v) (some bad) = false ∧
    update_available (some bad) (some v) = false := by
  refine ⟨by decide, by decide, ?_, ?_, ?_, ?_⟩
  · simp [compare_versions, h]
  · unfold compare_versions
    rw [h]
    cases parse_version v <;> rfl
  · cases hv : parse_version v <;>
      simp [update_available, compare_versions, h, hv]
  · cases hv : parse_version v <;>
      simp [update_available, compare_versions, h, hv]

/-- Witness for C8 at the malformed string "not-a-version". -/
theorem C8_compare_versions_witness :
    compare_versions "not-a-version" "1.0.0" = none ∧
    update_available (some "1.0.0") (some "not-a-version") = false := by
  have h := C8_compare_versions "not-a-version" "1.0.0" (by decide)
  exact ⟨h.2.2.1, h.2.2.2.2.1⟩

/-- C3 describes the intended capability-gated truncation; the code's
comparison is inverted. At the failing input (no GPU layers, 2-character
prompt "hi") the slice `&prompt[..400]` indexes past the end and panics
(`none`); a 400-character prompt with no GPU layers is fed whole rather
than truncated; with 33 or more GPU layers the full prompt is used. -/
theorem C3_truncation_bug :
    truncated_prompt none "hi".data = none ∧
    truncated_prompt (some 0) "hi".data = none ∧
    truncated_prompt none (List.replicate 400 'a') = some (List.replicate 400 'a') ∧
    truncated_prompt none (List.replicate 500 'a') = some (List.replicate 500 'a') ∧
    truncated_prompt (some 33) "hi".data = some "hi".data := by
  refine ⟨by decide, by decide, ?_, ?_, by decide⟩
  · simp [truncated_prompt]
  · simp [truncated_prompt]

/-! ## Theorems for C2 and C10 -/

/-- C2 counterexample: reloading from "a" to "b" emits
`constructed "b" 1` before `dropped "a" 0`: the old engine is NOT dropped
before the new engine is constructed (its drop event does not precede the
construction event in the trace). -/
theorem C2_drop_order_counterexample :
    (ensure_model (fun _ => true) c2State "b").2.1 =
      [EngineEvent.constructed "b" 1, EngineEvent.dropped "a" 0] ∧
    ¬ (List.indexOf (EngineEvent.dropped "a" 0)
          (ensure_model (fun _ => true) c2State "b").2.1 <
        List.indexOf (EngineEvent.constructed "b" 1)
          (ensure_model (fun _ => true) c2State "b").2.1) := by
  exact ⟨by decide, by decide⟩

/-- C2 (amended): a second `ensure_model` call with the same path performs
no reload — the state, including the loaded engine instance, is unchanged
and no lifecycle event occurs; a call with a different path (whose model
file exists) constructs the new engine first and drops the old one
immediately afterwards, when the cell is overwritten. -/
theorem C2_ensure_model_reload (fileExists : String → Bool) (st : EngineState)
    (p : String) (old : Engine) (h : st.loaded = some old) :
    (old.path = p → ensure_model fileExists st p = (st, [], Except.ok ())) ∧
    (old.path ≠ p → fileExists p = true →
      ensure_model fileExists st p =
        ({ loaded := some ⟨p, st.nextId⟩, nextId := st.nextId + 1 },
         [EngineEvent.constructed p st.nextId,
          EngineEvent.dropped old.path old.instanceId], Except.ok ())) := by
  constructor
  · intro hp
    simp [ensure_model, h, hp]
  · intro hp hex
    simp [ensure_model, h, hp, embedded_model_new, hex]

/-- Witness for C2 (amended): same-path call on `c2State` is a no-op;
a call for path "b" constructs then drops. -/
theorem C2_ensure_model_reload_witness :
    ensure_model (fun _ => true) c2State "a" = (c2State, [], Except.ok ()) ∧
    ensure_model (fun _ => true) c2State "b" =
      ({ loaded := some ⟨"b", 1⟩, nextId := 2 },
       [EngineEvent.constructed "b" 1, EngineEvent.dropped "a" 0], Except.ok ()) := by
  have h := C2_ensure_model_reload (fun _ => true) c2State "a" ⟨"a", 0⟩ rfl
  have h2 := C2_ensure_model_reload (fun _ => true) c2State "b" ⟨"a", 0⟩ rfl
  exact ⟨h.1 rfl, h2.2 (by decide) rfl⟩

/-- C10: when `ensure_model` is called with a path different from the
loaded one and construction of the new engine fails because the model file
does not exist, the call returns an error, no lifecycle event occurs, the
previously loaded engine remains installed unchanged, and a subsequent
inference still runs against the old engine. -/
theorem C10_ensure_model_failure_keeps_old (fileExists : String → Bool)
    (st : EngineState) (p : String) (old : Engine)
    (h : st.loaded = some old) (hne : old.path ≠ p) (hmiss : fileExists p = false) :
    ensure_model fileExists st p =
      (st, [], Except.error ("Model file not found at " ++ p)) ∧
    infer_engine (ensure_model fileExists st p).1 = some old := by
  have : ensure_model fileExists st p =
      (st, [], Except.error ("Model file not found at " ++ p)) := by
    simp [ensure_model, h, hne, embedded_model_new, hmiss]
  exact ⟨this, by rw [this]; exact h⟩

/-- Witness for C10: engine for "a" loaded, reload to missing "b" fails
and leaves instance 0 for "a" installed. -/
theorem C10_ensure_model_failure_witness :
    ensure_model (fun _ => false) c2State "b" =
      (c2State, [], Except.error ("Model file not found at " ++ "b")) ∧
    infer_engine (ensure_model (fun _ => false) c2State "b").1 = some ⟨"a", 0⟩ :=
  C10_ensure_model_failure_keeps_old (fun _ => false) c2State "b" ⟨"a", 0⟩
    rfl (by decide) rfl

/-! ## Theorems for C5, C9, C4 and C6 -/

/-- C5: `get_llm_server_status` returns exactly one of not_downloaded,
downloaded, running, or the command-level error(message); no executable at
any candidate path yields not_downloaded; with an executable present, a
successful probe yields running, and any connection failure or non-success
HTTP status yields downloaded together with a diagnostic error field. -/
theorem C5_status_spec (adOk : Bool) (pathExists : String → Bool)
    (sv : Option String) (rhp : Option (String × Nat)) (probe : ProbeResult) :
    (∀ info, get_llm_server_status adOk pathExists sv rhp probe = Except.ok info →
      info.status = "not_downloaded" ∨ info.status = "downloaded" ∨
        info.status = "running") ∧
    (∀ e, get_llm_server_status adOk pathExists sv rhp probe = Except.error e →
      e = "Could not get app data directory") ∧
    (adOk = true → statusCandidatePaths.find? pathExists = none →
      get_llm_server_status adOk pathExists sv rhp probe =
        Except.ok ⟨"not_downloaded", none, none, none, none⟩) ∧
    (∀ p code, adOk = true → statusCandidatePaths.find? pathExists = some p →
      probe = ProbeResult.ok code → http_success code = true →
      statusField (get_llm_server_status adOk pathExists sv rhp probe) =
        some "running" ∧
      diagField (get_llm_server_status adOk pathExists sv rhp probe) = false) ∧
    (∀ p code, adOk = true → statusCandidatePaths.find? pathExists = some p →
      probe = ProbeResult.ok code → http_success code = false →
      statusField (get_llm_server_status adOk pathExists sv rhp probe) =
        some "downloaded" ∧
      diagField (get_llm_server_status adOk pathExists sv rhp probe) = true) ∧
    (∀ p m, adOk = true → statusCandidatePaths.find? pathExists = some p →
      probe = ProbeResult.err m →
      statusField (get_llm_server_status adOk pathExists sv rhp probe) =
        some "downloaded" ∧
      diagField (get_llm_server_status adOk pathExists sv rhp probe) = true) := by
  refine ⟨?_, ?_, ?_, ?_, ?_, ?_⟩
  · intro info hinfo
    cases adOk with
    | false => simp [get_llm_server_status] at hinfo
    | true =>
      cases hf : statusCandidatePaths.find? pathExists with
      | none =>
        simp [get_llm_server_status, hf] at hinfo
        simp [← hinfo]
      | some p =>
        cases probe with
        | ok code =>
          by_cases hs : http_success code = true
          · simp [get_llm_server_status, hf, hs] at hinfo
            simp [← hinfo]
          · simp [get_llm_server_status, hf, hs] at hinfo
            simp [← hinfo]
        | err m =>
          simp [get_llm_server_status, hf] at hinfo
          simp [← hinfo]
  · intro e he
    cases adOk with
    | false => simpa [get_llm_server_status] using he.symm
    | true =>
      cases hf : statusCandidatePaths.find? pathExists with
      | none => simp [get_llm_server_status, hf] at he
      | some p =>
        cases probe with
        | ok code =>
          by_cases hs : http_success code = true <;>
            simp [get_llm_server_status, hf, hs] at he
        | err m => simp [get_llm_server_status, hf] at he
  · intro ha hf
    simp [get_llm_server_status, ha, hf]
  · intro p code ha hf hp hs
    subst hp
    constructor <;> simp [get_llm_server_status, statusField, diagField, ha, hf, hs]
  · intro p code ha hf hp hs
    subst hp
    constructor <;> simp [get_llm_server_status, statusField, diagField, ha, hf, hs]
  · intro p m ha hf hp
    subst hp
    constructor <;> simp [get_llm_server_status, statusField, diagField, ha, hf]

/-- Witness for C5: no candidate exists, so status is not_downloaded. -/
theorem C5_status_spec_witness :
    get_llm_server_status true (fun _ => false) none none (ProbeResult.ok 200) =
      Except.ok ⟨"not_downloaded", none, none, none, none⟩ :=
  (C5_status_spec true (fun _ => false) none none (ProbeResult.ok 200)).2.2.1 rfl rfl

/-- C9 counterexample: with only the flat file `llama_server` present,
`status` finds an executable at its second candidate path (and reports
downloaded), yet `start` — which checks only the single path
`llama_server/llama_server` — fails with the NotFound error. -/
theorem C9_start_counterexample :
    statusCandidatePaths.find? (fun s => decide (s = "llama_server")) =
      some "llama_server" ∧
    statusField (get_llm_server_status true (fun s => decide (s = "llama_server"))
        none none (ProbeResult.err "conn")) = some "downloaded" ∧
    start_resolve_exe (fun s => decide (s = "llama_server")) =
      Except.error "Server binary not found. Please download it first." := by
  exact ⟨by decide, rfl, rfl⟩

/-- C9 (amended): `start_llm_server` resolves the executable by checking a
single platform-specific path (on Linux the first of `status`'s candidate
paths) and fails with the NotFound error if that path does not exist; a
filesystem state in which `status` finds an executable at a different
candidate path still makes `start` fail with NotFound. -/
theorem C9_start_resolution (pathExists : String → Bool) :
    (pathExists startServerExePath = false →
      start_resolve_exe pathExists =
        Except.error "Server binary not found. Please download it first.") ∧
    (pathExists startServerExePath = true →
      start_resolve_exe pathExists = Except.ok startServerExePath) ∧
    statusCandidatePaths.head? = some startServerExePath := by
  refine ⟨fun h => ?_, fun h => ?_, rfl⟩
  · simp [start_resolve_exe, h]
  · simp [start_resolve_exe, h]

/-- Witness for C9 (amended): with an empty filesystem, start resolution
fails with the NotFound error. -/
theorem C9_start_resolution_witness :
    start_resolve_exe (fun _ => false) =
      Except.error "Server binary not found. Please download it first." :=
  (C9_start_resolution (fun _ => false)).1 rfl

/-- C4: orphan reconnection at startup. With a PID file present and no
record: a dead pid deletes the file and creates no record; a live pid with
a successful probe installs a record with no owning handle, spawning no
process (the spawned-pid list is empty in every case); a live pid with a
failed or non-success probe deletes the stale file and creates no
record. -/
theorem C4_orphan_reconnect (st : SupervisorState) (alive : Nat → Bool)
    (probe : ProbeResult) (pid port : Nat) (host : String)
    (hpf : st.pidFile = some (pid, port, host)) (hrec : st.record = none) :
    (try_reconnect_orphaned_server st alive probe).2.1 = [] ∧
    (try_reconnect_orphaned_server st alive probe).2.2 = Except.ok () ∧
    (alive pid = false →
      (try_reconnect_orphaned_server st alive probe).1 =
        { pidFile := none, record := none }) ∧
    (∀ code, alive pid = true → probe = ProbeResult.ok code →
      http_success code = true →
      (try_reconnect_orphaned_server st alive probe).1 =
        { pidFile := some (pid, port, host),
          record := some ⟨none, pid, host, port⟩ }) ∧
    (∀ code, alive pid = true → probe = ProbeResult.ok code →
      http_success code = false →
      (try_reconnect_orphaned_server st alive probe).1 =
        { pidFile := none, record := none }) ∧
    (∀ m, alive pid = true → probe = ProbeResult.err m →
      (try_reconnect_orphaned_server st alive probe).1 =
        { pidFile := none, record := none }) := by
  obtain ⟨pf, rec⟩ := st
  cases hpf
  cases hrec
  refine ⟨?_, ?_, ?_, ?_, ?_, ?_⟩
  · cases ha : alive pid with
    | false => simp [try_reconnect_orphaned_server, ha]
    | true =>
      cases probe with
      | ok code =>
        by_cases hs : http_success code = true <;>
          simp [try_reconnect_orphaned_server, ha, hs]
      | err m => simp [try_reconnect_orphaned_server, ha]
  · cases ha : alive pid with
    | false => simp [try_reconnect_orphaned_server, ha]
    | true =>
      cases probe with
      | ok code =>
        by_cases hs : http_success code = true <;>
          simp [try_reconnect_orphaned_server, ha, hs]
      | err m => simp [try_reconnect_orphaned_server, ha]
  · intro ha
    simp [try_reconnect_orphaned_server, ha]
  · intro code ha hp hs
    subst hp
    simp [try_reconnect_orphaned_server, ha, hs]
  · intro code ha hp hs
    subst hp
    simp [try_reconnect_orphaned_server, ha, hs]
  · intro m ha hp
    subst hp
    simp [try_reconnect_orphaned_server, ha]

/-- Witness for C4: a live, probe-responsive pid 42 is reconnected as an
orphan record with no owning handle, without spawning. -/
theorem C4_orphan_reconnect_witness :
    (try_reconnect_orphaned_server
        ⟨some (42, 8000, "127.0.0.1"), none⟩ (fun _ => true)
        (ProbeResult.ok 200)).1 =
      { pidFile := some (42, 8000, "127.0.0.1"),
        record := some ⟨none, 42, "127.0.0.1", 8000⟩ } ∧
    (try_reconnect_orphaned_server
        ⟨some (42, 8000, "127.0.0.1"), none⟩ (fun _ => true)
        (ProbeResult.ok 200)).2.1 = [] := by
  have h := C4_orphan_reconnect ⟨some (42, 8000, "127.0.0.1"), none⟩
    (fun _ => true) (ProbeResult.ok 200) 42 8000 "127.0.0.1" rfl rfl
  exact ⟨h.2.2.2.1 200 rfl rfl (by decide), h.1⟩

/-- C6 counterexample: with a leftover PID file and no in-memory record,
`stop_llm_server` takes the no-record branch and returns success without
removing the PID file — so "after every stop() call the PID file has been
removed" fails at this input. -/
theorem C6_stop_counterexample :
    (stop_llm_server c6State true true).1.pidFile = some (1234, 8000, "127.0.0.1") ∧
    (stop_llm_server c6State true true).2 = Except.ok "Server was not running" :=
  ⟨rfl, rfl⟩

/-- C6 (amended): `stop_llm_server` is an idempotent no-op returning
success when no in-memory record exists (leaving any PID file untouched);
whenever a record exists, after the call — regardless of whether the kill
attempts succeeded or the liveness verification still sees the process —
the PID file has been removed and the in-memory record is cleared. -/
theorem C6_stop_spec (st : SupervisorState) (killOk aliveAfter : Bool) :
    (st.record = none →
      stop_llm_server st killOk aliveAfter = (st, Except.ok "Server was not running")) ∧
    (∀ r, st.record = some r →
      (stop_llm_server st killOk aliveAfter).1.pidFile = none ∧
      (stop_llm_server st killOk aliveAfter).1.record = none ∧
      (stop_llm_server st killOk aliveAfter).2 = Except.ok "Server stopped") := by
  constructor
  · intro h
    simp [stop_llm_server, h]
  · intro r h
    simp [stop_llm_server, h]

/-- Witness for C6 (amended): stop with no record is a no-op; stop with a
record clears both the PID file and the record even when the verification
still sees the process alive. -/
theorem C6_stop_spec_witness :
    stop_llm_server c6State true true = (c6State, Except.ok "Server was not running") ∧
    (stop_llm_server ⟨some (7, 80, "h"), some ⟨some 3, 7, "h", 80⟩⟩ false true).1.pidFile = none ∧
    (stop_llm_server ⟨some (7, 80, "h"), some ⟨some 3, 7, "h", 80⟩⟩ false true).1.record = none := by
  refine ⟨(C6_stop_spec c6State true true).1 rfl, ?_, ?_⟩
  · exact ((C6_stop_spec ⟨some (7, 80, "h"), some ⟨some 3, 7, "h", 80⟩⟩ false true).2
      ⟨some 3, 7, "h", 80⟩ rfl).1
  · exact ((C6_stop_spec ⟨some (7, 80, "h"), some ⟨some 3, 7, "h", 80⟩⟩ false true).2
      ⟨some 3, 7, "h", 80⟩ rfl).2.1


/-! ## Theorem for C1 -/

/-- C1: when the download/install step of `update_llm_server` fails and a
backup of the previous install exists (the previous install directory was
present, so step 2 moved it to the backup location), the partial new
install is discarded, the backup is restored so the install directory
again holds the previous content bit-for-bit, the backup location is
cleared, and an error describing the install failure is returned —
for every prior running state, restart outcome, and partial content. -/
theorem C1_update_rollback (version : String) (fs : InstallFs) (prev : Nat)
    (wasRunning : Bool) (e : String) (partialContent : Option Nat)
    (startResult : Except String String) (h : fs.server = some prev) :
    (update_llm_server version fs wasRunning (DlOutcome.err e partialContent) startResult).1.server
      = some prev ∧
    (update_llm_server version fs wasRunning (DlOutcome.err e partialContent) startResult).1.backup
      = none ∧
    (update_llm_server version fs wasRunning (DlOutcome.err e partialContent) startResult).2
      = Except.error ("Update failed: " ++ e ++ ". Previous version restored.") := by
  obtain ⟨s, b⟩ := fs
  cases h
  refine ⟨?_, ?_, ?_⟩ <;> simp [update_llm_server]

/-- Witness for C1: previous content 7 at the install directory, a failed
download leaving partial content 9, previous backup 3 overwritten; the
install directory again holds 7 and the error names the failure. -/
theorem C1_update_rollback_witness :
    (update_llm_server "1.1.0" ⟨some 7, some 3⟩ true
        (DlOutcome.err "Download failed with status: 404" (some 9))
        (Except.error "spawn failed")).1.server
      = some 7 ∧
    (update_llm_server "1.1.0" ⟨some 7, some 3⟩ true
        (DlOutcome.err "Download failed with status: 404" (some 9))
        (Except.error "spawn failed")).2
      = Except.error ("Update failed: " ++ "Download failed with status: 404" ++
          ". Previous version restored.") := by
  have h := C1_update_rollback "1.1.0" ⟨some 7, some 3⟩ 7 true
    "Download failed with status: 404" (some 9) (Except.error "spawn failed") rfl
  exact ⟨h.1, h.2.2⟩

/-- The streaming loop, prefixed by the InProgress snapshot it starts
from, is a forward-only chain. -/
theorem stream_snaps_chain (s : DlScript) (chunks : List (Except String Nat))
    (bytes : Nat) :
    List.Chain' snapLE ((DownloadStatus.inProgress, bytes) :: stream_snaps s chunks bytes) := by
  induction chunks generalizing bytes with
  | nil =>
    by_cases hf : s.flushOk = false
    · simp [stream_snaps, hf, snapLE, statusLE, statusRank]
    · cases hc : s.checksum with
      | none => simp [stream_snaps, hf, hc, snapLE, statusLE, statusRank]
      | some b =>
        cases b <;> simp [stream_snaps, hf, hc, snapLE, statusLE, statusRank]
  | cons head rest ih =>
    cases head with
    | error e => simp [stream_snaps, snapLE, statusLE, statusRank]
    | ok n =>
      refine List.Chain'.cons ?_ (ih (bytes + n))
      exact ⟨Or.inl rfl, Nat.le_add_right bytes n⟩

/-- C7: over every download script — every initial response, every
sequence of chunk arrivals and failures, every flush and checksum outcome
— the snapshots of a DownloadRecord's (status, bytes_downloaded) are
pairwise forward-ordered: the status only moves along
Pending → InProgress → {Completed, Failed}, never backwards and never out
of Completed or Failed, and bytes_downloaded never decreases; and the
record's lifetime begins at (Pending, 0). -/
theorem C7_download_monotone (s : DlScript) :
    List.Pairwise snapLE (perform_download s) ∧
    (perform_download s).head? = some (DownloadStatus.pending, 0) := by
  constructor
  · rw [← List.chain'_iff_pairwise]
    unfold perform_download
    cases s.response with
    | error e => simp [snapLE, statusLE, statusRank]
    | ok code =>
      by_cases hc : http_success code = false
      · simp [hc, snapLE, statusLE, statusRank]
      · simp only [hc, if_false]
        by_cases ho : s.openOk = false
        · simp [ho, snapLE, statusLE, statusRank]
        · simp only [ho, if_false]
          refine List.Chain'.cons ?_ (stream_snaps_chain s s.chunks 0)
          exact ⟨Or.inr (by simp [statusRank]), le_refl 0⟩
  · unfold perform_download
    rfl

